import Mathlib

/-
Verification of the nested-routes movie lesson: a shallow embedding of the
repository's action creators (src/src/actions/index.js), the list-view
container (src/src/containers/MoviesPage.js), the router configurations
(src/src/index.js and the lesson's final configuration in
src/unnamed/part_001), and the detail/creation containers defined in the
lesson's code blocks (MoviesShow, MoviesNew).
-/

set_option autoImplicit false

namespace MovieApp

/-- A movie record: `{ id, title }`.  Stored ids are JS numbers (integers in
this program); captured route parameters arrive separately, as strings. -/
structure Movie where
  id : Int
  title : String
deriving DecidableEq, Repr

/-- The Redux actions produced by src/src/actions/index.js: `FETCH_MOVIES`
carries a movie list, `ADD_MOVIE` carries one movie record. -/
inductive Action where
  | fetchMoviesAct (movies : List Movie)
  | addMovieAct (movie : Movie)
deriving DecidableEq, Repr

/-- src/src/actions/index.js lines 1-6: `fetchMovies()` returns the action
with the fixed single-element seed list. -/
def fetchMovies : Action :=
  Action.fetchMoviesAct [⟨1, "A River Runs Through It"⟩]

/-- src/src/actions/index.js lines 8-15: `let counter = 1; function
addMovie(movie) { movie.id = ++counter; return { type: ADD_MOVIE, movie } }`.
The module-level mutable counter is passed and returned explicitly; `++counter`
increments before use, and the incremented value is written into the payload's
`id` field. -/
def addMovie (counter : Int) (movie : Movie) : Int × Action :=
  let c := counter + 1
  (c, Action.addMovieAct { movie with id := c })

/-- The application state held by the store: `{ movies }`. -/
structure AppState where
  movies : List Movie
deriving DecidableEq, Repr

/-- Modelled from the spec: the root reducer (imported by src/src/index.js
from `./reducers`, a file absent from the repository snapshot).  Per §4.1 of
the spec: on a "request movie list" intent the state's `movies` is replaced
by the intent's supplied list; on an "add movie" intent the new record is
appended to the previous sequence. -/
def rootReducer (s : AppState) (a : Action) : AppState :=
  match a with
  | Action.fetchMoviesAct ms => { s with movies := ms }
  | Action.addMovieAct m => { s with movies := s.movies ++ [m] }

/-- Run a sequence of `addMovie` calls, each dispatched through the reducer:
this is the "sequence of add-movie intents" of the spec, threading the
module-level counter explicitly. -/
def runAddMovies (counter : Int) (s : AppState) : List Movie → Int × AppState
  | [] => (counter, s)
  | m :: ms =>
    let ca := addMovie counter m
    runAddMovies ca.1 (rootReducer s ca.2) ms

/-- The records a run of `addMovie` calls creates, starting from counter
value `c`: the k-th payload (0-indexed) gets id `c + 1 + k`. -/
def createdFrom (c : Int) : List Movie → List Movie
  | [] => []
  | m :: ms => { m with id := c + 1 } :: createdFrom (c + 1) ms

/- ### Router matcher -/

/-- One segment of a route pattern: a literal segment, or a parameter
capture such as `:id`. -/
inductive Seg where
  | lit (s : String)
  | capture (name : String)
deriving DecidableEq, Repr

/-- A `<Route path=... component=...>` declaration, with its nested child
declarations.  Patterns are absolute segment lists, as in both router
configurations of this repository (every declared path starts at the root,
e.g. the child of `/movies` is declared as `/movies/:id`). -/
inductive RouteDecl where
  | mk (pattern : List Seg) (comp : String) (children : List RouteDecl)
deriving Repr

/-- Pattern of a route declaration. -/
def RouteDecl.pattern : RouteDecl → List Seg
  | RouteDecl.mk p _ _ => p

/-- Component name of a route declaration. -/
def RouteDecl.comp : RouteDecl → String
  | RouteDecl.mk _ c _ => c

/-- Child declarations of a route declaration. -/
def RouteDecl.children : RouteDecl → List RouteDecl
  | RouteDecl.mk _ _ cs => cs

/-- Full match of an absolute pattern against a path's segment list,
returning the captured parameter bindings. -/
def matchPattern : List Seg → List String → Option (List (String × String))
  | [], [] => some []
  | Seg.lit s :: ps, seg :: segs =>
    if s = seg then matchPattern ps segs else none
  | Seg.capture n :: ps, seg :: segs =>
    match matchPattern ps segs with
    | some binds => some ((n, seg) :: binds)
    | none => none
  | _, _ => none

mutual

/-- Modelled from the spec: the route matcher of the external react-router
library (not part of this repository).  Per §4.2: sibling patterns are
evaluated in declaration order and the first match at each tree level wins;
a component declared as a child pattern renders nested under its parent, so
a successful match yields the chain of component names from the matched
route down to the most specific match, plus the captured parameters.  A
route with children first tries its children (which carry absolute
patterns); if no child matches, the route matches exactly on its own
pattern. -/
def matchRoute (path : List String) (r : RouteDecl) :
    Option (List String × List (String × String)) :=
  match r with
  | RouteDecl.mk pat comp children =>
    match matchFirst path children with
    | some (chain, binds) => some (comp :: chain, binds)
    | none =>
      match matchPattern pat path with
      | some binds => some ([comp], binds)
      | none => none

/-- First route in declaration order that matches the path. -/
def matchFirst (path : List String) : List RouteDecl →
    Option (List String × List (String × String))
  | [] => none
  | r :: rs =>
    match matchRoute path r with
    | some res => some res
    | none => matchFirst path rs

end

/-- Split a character list into path segments at `/`, dropping empty
segments; `acc` holds the characters of the current segment, reversed. -/
def segsOfAux : List Char → List Char → List String
  | [], acc => if acc = [] then [] else [String.mk acc.reverse]
  | c :: cs, acc =>
    if c = '/' then
      (if acc = [] then [] else [String.mk acc.reverse]) ++ segsOfAux cs []
    else
      segsOfAux cs (c :: acc)

/-- Split a URL path into its segment list, dropping empty segments, as in
`/movies/new` ↦ `["movies", "new"]`. -/
def segsOf (p : String) : List String :=
  segsOfAux p.data []

/-- src/src/index.js lines 16-23: the committed router configuration.  The
two routes are self-closing siblings — `<Route path="/" component=App />`
and `<Route path="/movies" component=MoviesPage />` — with no nesting and
no `/movies/new` or `/movies/:id` declarations. -/
def committedRoutes : List RouteDecl :=
  [ RouteDecl.mk [] "App" [],
    RouteDecl.mk [Seg.lit "movies"] "MoviesPage" [] ]

/-- src/unnamed/part_001 (and the markdown embedded in
src/src/containers/MoviesPage.js): the literal `/movies/new` route, declared
first among the siblings. -/
def newRoute : RouteDecl :=
  RouteDecl.mk [Seg.lit "movies", Seg.lit "new"] "MoviesNew" []

/-- src/unnamed/part_001: the parameterized `/movies/:id` route, declared
second. -/
def idRoute : RouteDecl :=
  RouteDecl.mk [Seg.lit "movies", Seg.capture "id"] "MoviesShow" []

/-- src/unnamed/part_001 lines 336-352: the lesson's final router
configuration — `/` wraps `/movies`, which wraps `/movies/new` (declared
first) and `/movies/:id`. -/
def nestedRoutes : List RouteDecl :=
  [ RouteDecl.mk [] "App"
      [ RouteDecl.mk [Seg.lit "movies"] "MoviesPage"
          [ newRoute, idRoute ] ] ]

/- ### List-view container (MoviesPage) -/

/-- A node of the list view's render output: the `MoviesList` child, or the
router-supplied children slot (`this.props.children`, the component names
the router nested beneath the page). -/
inductive UINode where
  | moviesList (movies : List Movie)
  | childSlot (children : List String)
deriving DecidableEq, Repr

/-- src/src/containers/MoviesPage.js lines 13-19: the committed render —
`<div><MoviesList movies=this.props.movies /></div>`.  It receives the
router-supplied `children` prop but does not render it. -/
def MoviesPage.render (movies : List Movie) (_children : List String) :
    List UINode :=
  [UINode.moviesList movies]

/-- src/unnamed/part_001 lines 363-369: the render the lesson arrives at —
`<div><MoviesList movies=... />{ this.props.children }</div>`, the children
slot directly after the list. -/
def MoviesPage.renderFinal (movies : List Movie) (children : List String) :
    List UINode :=
  [UINode.moviesList movies, UINode.childSlot children]

/-- The side effects a component handler can issue: cancelling the default
form navigation, dispatching an action to the store, or pushing a path onto
the browser history. -/
inductive Effect where
  | preventDefault
  | dispatch (a : Action)
  | navigate (path : String)
deriving DecidableEq, Repr

/-- src/src/containers/MoviesPage.js lines 9-11: `componentDidMount()` calls
`this.props.fetchMovies()`, i.e. dispatches the fetch action once at mount
time. -/
def componentDidMount : List Effect :=
  [Effect.dispatch fetchMovies]

/- ### Detail view (MoviesShow, src/unnamed/part_001 lines 287-299) -/

/-- Numeric value of a string of decimal digits. -/
def digitsVal (s : String) : Nat :=
  s.data.foldl (fun a c => a * 10 + (c.toNat - 48)) 0

/-- JS `ToNumber` on a string, on the fragment this program exercises: the
empty string maps to 0, a string of decimal digits maps to that integer, and
any other string behaves as NaN (`none`) for the purposes of comparison with
an integer id. -/
def strToNumber (s : String) : Option Int :=
  if s.data.all Char.isDigit then some (Int.ofNat (digitsVal s)) else none

/-- JS loose equality `n == s` between a number and a string: the string is
converted with `ToNumber` and the values compared; a NaN conversion makes
the comparison false. -/
def jsLooseEq (n : Int) (s : String) : Bool :=
  match strToNumber s with
  | some m => n = m
  | none => false

/-- src/unnamed/part_001 lines 295-299 (`mapStateToProps`):
`state.movies.find(movie => movie.id == ownProps.routeParams.id)` — the
first record whose numeric id loosely equals the captured string parameter;
`find` yields `undefined` (`none`) when no record matches. -/
def MoviesShow.lookup (movies : List Movie) (idParam : String) :
    Option Movie :=
  movies.find? (fun m => jsLooseEq m.id idParam)

/-- src/unnamed/part_001 lines 287-293: the MoviesShow component body renders
`{props.movie.title}`.  When the lookup produced no record, `props.movie` is
`undefined` and the property access `props.movie.title` raises a TypeError;
the raise is modelled as `Except.error`. -/
def MoviesShow.render (movie : Option Movie) : Except String String :=
  match movie with
  | some m => Except.ok m.title
  | none => Except.error "TypeError: Cannot read property title of undefined"

/- ### Creation view (MoviesNew, src/unnamed/part_001 lines 399-442) -/

/-- src/unnamed/part_001 lines 438-442 (`handleOnSubmit`): the submit handler
runs `event.preventDefault()`, then `this.props.addMovie(this.state)` — the
bound action creator, which dispatches the `addMovie` action built from the
local state — then `browserHistory.push('/movies')`.  The local state object
holds only `title` and no `id` until `addMovie` assigns one; the payload is
modelled with a placeholder id 0, which `addMovie` overwrites. -/
def handleOnSubmit (counter : Int) (title : String) : List Effect :=
  let ca := addMovie counter ⟨0, title⟩
  [Effect.preventDefault, Effect.dispatch ca.2, Effect.navigate "/movies"]

/- ### Aliasing model of addMovie (payload passed by reference) -/

/-- A JS environment for the aliasing-sensitive view of `addMovie`: the
module-level counter together with a heap of movie objects addressed by
reference. -/
structure JsEnv where
  counter : Int
  heap : Nat → Movie

/-- The `ADD_MOVIE` intent as built by `addMovie`, at the object level: its
`movie` field holds a reference to (not a copy of) the caller's payload. -/
structure AddMovieIntent where
  movieRef : Nat
deriving DecidableEq, Repr

/-- src/src/actions/index.js lines 8-15 at the object level: `movie.id =
++counter` mutates the referenced payload object in place, and the returned
intent's `movie` field is that very reference. -/
def addMovieRef (env : JsEnv) (r : Nat) : JsEnv × AddMovieIntent :=
  let c := env.counter + 1
  (⟨c, Function.update env.heap r { env.heap r with id := c }⟩, ⟨r⟩)

/- ### Module evaluation of src/src/containers/MoviesPage.js -/

/-- The identifiers bound in the module scope of
src/src/containers/MoviesPage.js: the six imported bindings, the class
`MoviesPage`, and the two `const` declarations. -/
def moviesPageModuleScope : List String :=
  ["React", "Component", "connect", "bindActionCreators", "fetchMovies",
   "MoviesList", "MoviesPage", "mapStateToProps", "mapDispatchToProps"]

/-- src/src/containers/MoviesPage.js line 34: evaluating the default-export
expression `connect(mapStateToProps, mapDispatchToProps)(MoviePage)` resolves
the identifier `MoviePage` in module scope; resolving an unbound identifier
raises a ReferenceError, so the module fails to evaluate and exports
nothing.  On success the export would be the connected component wrapping
the resolved identifier. -/
def moviesPageDefaultExport : Except String String :=
  if "MoviePage" ∈ moviesPageModuleScope then
    Except.ok "Connect(MoviePage)"
  else
    Except.error "ReferenceError: MoviePage is not defined"

/- ### Theorems -/

/-- Claim C1 (counterexample): in the committed router configuration of
src/src/index.js, the URL `/movies/new` matches no route at all — the
configuration declares `/` and `/movies` as self-closing siblings with no
child routes, so no render chain root → list → child is ever produced; the
same holds for `/movies/7`. -/
theorem committed_router_no_child_match :
    matchFirst (segsOf "/movies/new") committedRoutes = none ∧
    matchFirst (segsOf "/movies/7") committedRoutes = none ∧
    segsOf "/movies/new" = ["movies", "new"] := by
  decide

/-- Claim C1 (amended): in the lesson's final router configuration
(src/unnamed/part_001), every URL `/movies/<seg>` produces the render chain
App → MoviesPage → child: the list view stays in the chain and the matched
child (`MoviesNew` for the literal segment `new`, otherwise `MoviesShow`
with the segment captured as `id`) is nested beneath it rather than
replacing it. -/
theorem nested_router_child_chain (s : String) :
    matchFirst ["movies", s] nestedRoutes =
      some (["App", "MoviesPage",
             if s = "new" then "MoviesNew" else "MoviesShow"],
            if s = "new" then [] else [("id", s)]) := by
  by_cases h : s = "new"
  · subst h; decide
  · simp [nestedRoutes, newRoute, idRoute, matchFirst, matchRoute,
      matchPattern, h, Ne.symm h]

/-- Claim C2 (counterexample): the committed MoviesPage render
(src/src/containers/MoviesPage.js lines 13-19) does not contain the
router-supplied children slot — with a matched `MoviesShow` child supplied,
the output is the movie list alone and the child is absent. -/
theorem moviesPage_render_omits_child :
    MoviesPage.render [⟨1, "A River Runs Through It"⟩] ["MoviesShow"] =
      [UINode.moviesList [⟨1, "A River Runs Through It"⟩]] ∧
    ¬ UINode.childSlot ["MoviesShow"] ∈
        MoviesPage.render [⟨1, "A River Runs Through It"⟩] ["MoviesShow"] := by
  decide

/-- Claim C2 (amended): the render the lesson arrives at
(src/unnamed/part_001 lines 363-369) consists of the page's own content —
the movie list — followed directly by the router-supplied children slot. -/
theorem moviesPage_final_render_child_slot
    (movies : List Movie) (children : List String) :
    MoviesPage.renderFinal movies children =
      [UINode.moviesList movies, UINode.childSlot children] := by
  rfl

/-- Claim C3: with the sibling patterns `/movies/new` and `/movies/:id`
declared in that order, the path `/movies/new` matches the literal route
(MoviesNew, no captures); with the declaration order reversed, the same
path matches the parameterized route and captures the text `new` as the
`id` parameter. -/
theorem route_order_sensitive :
    matchFirst ["movies", "new"] [newRoute, idRoute] =
      some (["MoviesNew"], []) ∧
    matchFirst ["movies", "new"] [idRoute, newRoute] =
      some (["MoviesShow"], [("id", "new")]) := by
  decide

/-- Claim C4 (code bug): with the seed state and the absent id `999`, the
detail view's lookup yields no record (`undefined`), and the render's
property access `props.movie.title` then raises a TypeError instead of
producing a placeholder; with the present id `1` the render yields that
record's title. -/
theorem moviesShow_render_raises_on_absent_id :
    MoviesShow.render
        (MoviesShow.lookup [⟨1, "A River Runs Through It"⟩] "999") =
      Except.error "TypeError: Cannot read property title of undefined" ∧
    MoviesShow.render
        (MoviesShow.lookup [⟨1, "A River Runs Through It"⟩] "1") =
      Except.ok "A River Runs Through It" := by
  exact ⟨rfl, rfl⟩

/-- Claim C5: the detail view's lookup compares the stored numeric ids to
the captured string parameter by value-coercing equality and returns the
first record whose id matches: looking up the string "1" in a state holding
the record with numeric id 1 yields that record, and in general, whenever
every record of a prefix fails the coercing comparison and `m` passes it,
the lookup over prefix ++ m :: rest returns `m`. -/
theorem moviesShow_lookup_coercing :
    MoviesShow.lookup [⟨1, "A River Runs Through It"⟩] "1" =
      some ⟨1, "A River Runs Through It"⟩ ∧
    ∀ (pre post : List Movie) (m : Movie) (p : String),
      (∀ m' ∈ pre, jsLooseEq m'.id p = false) →
      jsLooseEq m.id p = true →
      MoviesShow.lookup (pre ++ m :: post) p = some m := by
  refine ⟨rfl, ?_⟩
  intro pre post m p hpre hm
  induction pre with
  | nil =>
    simp only [MoviesShow.lookup, List.nil_append]
    exact List.find?_cons_of_pos _ hm
  | cons a as ih =>
    have ha : jsLooseEq a.id p = false := hpre a (List.mem_cons_self a as)
    have has : ∀ m' ∈ as, jsLooseEq m'.id p = false :=
      fun m' hm' => hpre m' (List.mem_cons_of_mem a hm')
    simp only [MoviesShow.lookup, List.cons_append] at ih ⊢
    rw [List.find?_cons_of_neg _ (by simp [ha])]
    exact ih has

/-- Witness for Claim C5's theorem: with a non-matching record with id 5 in
front and two records of id 1 behind, the lookup of the parameter "1"
returns the first id-1 record. -/
theorem moviesShow_lookup_coercing_witness :
    MoviesShow.lookup [⟨5, "x"⟩, ⟨1, "A"⟩, ⟨1, "B"⟩] "1" = some ⟨1, "A"⟩ :=
  moviesShow_lookup_coercing.2 [⟨5, "x"⟩] [⟨1, "B"⟩] ⟨1, "A"⟩ "1"
    (by decide) (by decide)

/-- Running the add-movie dispatches from counter value `c` advances the
counter by the number of intents and appends exactly the created records. -/
theorem runAddMovies_spec (ps : List Movie) (c : Int) (s : AppState) :
    runAddMovies c s ps = (c + ps.length, ⟨s.movies ++ createdFrom c ps⟩) := by
  induction ps generalizing c s with
  | nil => simp [runAddMovies, createdFrom]
  | cons m ms ih =>
    simp [runAddMovies, addMovie, rootReducer, createdFrom, ih,
      List.append_assoc, Prod.ext_iff]
    ring

/-- The run of `addMovie` creates one record per payload. -/
theorem createdFrom_length (ps : List Movie) (c : Int) :
    (createdFrom c ps).length = ps.length := by
  induction ps generalizing c with
  | nil => simp [createdFrom]
  | cons m ms ih => simp [createdFrom, ih]

/-- The ids assigned by a run of `addMovie` from counter value `c` are the
consecutive integers starting at `c + 1`. -/
theorem createdFrom_map_id (ps : List Movie) (c : Int) :
    (createdFrom c ps).map Movie.id =
      (List.range ps.length).map (fun (k : Nat) => c + 1 + (k : Int)) := by
  induction ps generalizing c with
  | nil => simp [createdFrom]
  | cons m ms ih =>
    simp only [createdFrom, List.map_cons, ih, List.length_cons,
      List.range_succ_eq_map, List.map_map, List.cons.injEq, Nat.cast_zero,
      add_zero, true_and]
    apply List.map_congr_left
    intro k _
    simp [Function.comp]
    ring

/-- Claim C6: starting from the counter's initial value 1, processing a
sequence of add-movie intents appends exactly one record per intent — the
movies sequence grows by the number of intents and ends with the created
records in order — the k-th created record (0-indexed) receives id k + 2
(the counter is incremented before first use, so the first created record
gets id 2), and the created ids are pairwise distinct. -/
theorem addMovie_sequence_appends_unique_ids
    (ps : List Movie) (s0 : AppState) :
    (runAddMovies 1 s0 ps).2.movies = s0.movies ++ createdFrom 1 ps ∧
    (runAddMovies 1 s0 ps).2.movies.length =
      s0.movies.length + ps.length ∧
    (createdFrom 1 ps).map Movie.id =
      (List.range ps.length).map (fun (k : Nat) => (k : Int) + 2) ∧
    ((createdFrom 1 ps).map Movie.id).Nodup := by
  have h1 := runAddMovies_spec ps 1 s0
  refine ⟨by simp [h1], by simp [h1, createdFrom_length], ?_, ?_⟩
  · rw [createdFrom_map_id]
    apply List.map_congr_left
    intro k _
    omega
  · rw [createdFrom_map_id]
    have hinj : Function.Injective (fun k : Nat => (1 : Int) + 1 + (k : Int)) := by
      intro a b hab
      simp only at hab
      omega
    exact (List.nodup_range _).map hinj

/-- Claim C7: the submit handler of MoviesNew first prevents the default
form navigation, then dispatches the add-movie intent built from the
current local title (the action creator assigns id `counter + 1`), and only
then — after the dispatch — issues the navigation intent to `/movies`. -/
theorem handleOnSubmit_effect_order (counter : Int) (title : String) :
    handleOnSubmit counter title =
      [Effect.preventDefault,
       Effect.dispatch (Action.addMovieAct ⟨counter + 1, title⟩),
       Effect.navigate "/movies"] := by
  rfl

/-- Claim C8: processing a "request movie list" intent replaces the state's
movies with the intent's supplied list, for every current state; the
`fetchMovies` action creator always supplies the fixed single-element seed
list; and the list view's mount hook dispatches exactly that action, once. -/
theorem fetch_movies_replaces_and_mount_dispatch
    (s : AppState) (ms : List Movie) :
    (rootReducer s (Action.fetchMoviesAct ms)).movies = ms ∧
    fetchMovies =
      Action.fetchMoviesAct [⟨1, "A River Runs Through It"⟩] ∧
    componentDidMount = [Effect.dispatch fetchMovies] := by
  exact ⟨rfl, rfl, rfl⟩

/-- Claim C9: at the object level, `addMovie` mutates the caller's payload
in place — the heap cell at the payload's reference gets id `counter + 1`
while its title is preserved, and no other cell changes — and the returned
intent's movie field is that very reference, not a copy; a second call,
even with a structurally identical payload, assigns the distinct id
`counter + 2`. -/
theorem addMovie_mutates_payload_in_place (env : JsEnv) (r r₂ : Nat) :
    ((addMovieRef env r).2).movieRef = r ∧
    (addMovieRef env r).1.heap =
      Function.update env.heap r
        { env.heap r with id := env.counter + 1 } ∧
    ((addMovieRef env r).1.heap r).id = env.counter + 1 ∧
    ((addMovieRef env r).1.heap r).title = (env.heap r).title ∧
    ((addMovieRef (addMovieRef env r).1 r₂).1.heap r₂).id =
      env.counter + 2 ∧
    env.counter + 1 ≠ env.counter + 2 := by
  refine ⟨rfl, rfl, ?_, ?_, ?_, by omega⟩
  · simp [addMovieRef]
  · simp [addMovieRef]
  · simp [addMovieRef]
    omega

/-- Claim C10: evaluating the default export of
src/src/containers/MoviesPage.js raises a ReferenceError — the export
expression applies the connected wrapper to the identifier `MoviePage`,
which is not bound in the module scope (the class is named `MoviesPage`) —
so no list-view component is exported. -/
theorem moviesPage_module_export_fails :
    moviesPageDefaultExport =
      Except.error "ReferenceError: MoviePage is not defined" ∧
    ¬ "MoviePage" ∈ moviesPageModuleScope ∧
    "MoviesPage" ∈ moviesPageModuleScope := by
  exact ⟨rfl, by decide, by decide⟩

end MovieApp
